import Mathlib

/-!
Verification development for the DDCL dynamic lane-allocation controller.
The definitions below are shallow embeddings of the Python sources under
`V1.6/controller/` (and, for the cross-variant comparison, `V4/controller/`):
pure functions become Lean functions, mutating methods become explicit
state-passing functions, Python floats are modelled as real (or, where the
code is exact, rational) numbers, and fallible code returns `Option`.
-/

namespace DDCL

/-!
## Lane manager

Embedding of `V1.6/controller/controllers/lane_manager.py`.

The edges of `SCL_EDGES` are modelled by their position `0, …, TOTAL-1` in the
ordered control-segment list (the identifiers in that immutable list are
distinct, and each controlled lane id `f"{edge_id}_{LANE_INDEX}"` determines
its edge id), so a set of controlled lanes is a `Finset ℕ` of edge positions,
and the clearance map `hcl_clearance_map : lane_id → edge_id` is represented
by its key set.  Python list indexing `SCL_EDGES[i]` accepts
`-TOTAL ≤ i < TOTAL` (negative indices wrap around) and raises `IndexError`
otherwise; a call that raises is modelled as `none`.  The `traci.*` permission
commands are external side effects and carry no information used here.
-/

structure LMState where
  total : ℕ
  current_m : ℤ
  current_n : ℤ
  current_r : ℤ
  hml_lanes : Finset ℕ
  cdl_lanes : Finset ℕ
  hcl_lanes : Finset ℕ
  hcl_clearance_map : Finset ℕ
deriving DecidableEq

/-- The state set by `LaneManager.__init__` / `reset_to_mixed_traffic`: `m = n = 0`,
`r = TOTAL_SCL_COUNT`, all lane sets empty. -/
def lmInit (total : ℕ) : LMState :=
  { total := total, current_m := 0, current_n := 0, current_r := total,
    hml_lanes := ∅, cdl_lanes := ∅, hcl_lanes := ∅, hcl_clearance_map := ∅ }

/-- Python list indexing semantics for `SCL_EDGES[i]` over a list of length
`total`: nonnegative indices `< total` are used directly, indices in
`[-total, 0)` wrap, anything else raises `IndexError` (`none`). -/
def pyIndex (total : ℕ) (i : ℤ) : Option ℕ :=
  if 0 ≤ i ∧ i < (total : ℤ) then some i.toNat
  else if -(total : ℤ) ≤ i ∧ i < 0 then some (i + total).toNat
  else none

/-- Python `range(a, b)` over integers. -/
def pyRange (a b : ℤ) : List ℤ :=
  (List.range (b - a).toNat).map (fun (k : ℕ) => a + (k : ℤ))

/-- Runs `SCL_EDGES[i]` for each index of a loop in order; the first failing
index aborts the whole call (the Python loop raises there). -/
def resolveRange (total : ℕ) : List ℤ → Option (List ℕ)
  | [] => some []
  | i :: rest => do
      let x ← pyIndex total i
      let xs ← resolveRange total rest
      pure (x :: xs)

/-- The method `LaneManager.apply_lane_strategy(m, n)`.  The clamp happens only when
`m + n > TOTAL_SCL_COUNT`, and then `m = min(m, TOTAL)`,
`n = min(n, TOTAL - m)` with the already-clamped `m`.  The previous cycle's
HML range `[current_r, current_r + current_n)` is snapshotted before the new
HML/CDL sets are built, and the HCL set is the loop over
`[max(last_hml_start, cdl_start), min(last_hml_end, TOTAL))` filtered by
membership in the freshly built CDL set.  A raising call returns `none`. -/
def applyLaneStrategy (s : LMState) (m n : ℤ) : Option LMState := do
  let m1 := if m + n > (s.total : ℤ) then min m (s.total : ℤ) else m
  let n1 := if m + n > (s.total : ℤ) then min n ((s.total : ℤ) - m1) else n
  let new_r := (s.total : ℤ) - m1 - n1
  let hml_start := new_r
  let cdl_start := new_r + n1
  let last_hml_start := s.current_r
  let last_hml_end := s.current_r + s.current_n
  let hml ← resolveRange s.total (pyRange hml_start cdl_start)
  let cdl ← resolveRange s.total (pyRange cdl_start (s.total : ℤ))
  let hcl_start := max last_hml_start cdl_start
  let hcl_end := min last_hml_end (s.total : ℤ)
  let hclRaw ← resolveRange s.total (pyRange hcl_start hcl_end)
  let hcl := hclRaw.filter (fun l => l ∈ cdl.toFinset)
  pure { s with
    current_m := m1, current_n := n1, current_r := new_r,
    hml_lanes := hml.toFinset, cdl_lanes := cdl.toFinset,
    hcl_lanes := hcl.toFinset, hcl_clearance_map := hcl.toFinset }

/-- The method `LaneManager.step()`.  `hasHV l = true` means some HV-class vehicle is
currently on lane `l` (the `traci.lane.getLastStepVehicleIDs` /
`getVehicleClass` query).  Every tracked HCL lane with no HV on it is removed
from the HCL set and from the clearance map. -/
def lmStep (hasHV : ℕ → Bool) (s : LMState) : LMState :=
  if s.hcl_lanes = ∅ then s
  else
    let cleared := s.hcl_lanes.filter (fun l => hasHV l = false)
    { s with hcl_lanes := s.hcl_lanes \ cleared,
             hcl_clearance_map := s.hcl_clearance_map \ cleared }

/-! ### Evaluation lemmas for the lane-index loops -/

theorem mem_pyRange {a b i : ℤ} : i ∈ pyRange a b ↔ a ≤ i ∧ i < b := by
  simp only [pyRange, List.mem_map, List.mem_range]
  constructor
  · rintro ⟨k, hk, rfl⟩; omega
  · intro h; exact ⟨(i - a).toNat, by omega, by omega⟩

theorem resolveRange_eq_of_bounds (total : ℕ) (l : List ℤ)
    (h : ∀ i ∈ l, 0 ≤ i ∧ i < (total : ℤ)) :
    resolveRange total l = some (l.map Int.toNat) := by
  induction l with
  | nil => rfl
  | cons i rest ih =>
      obtain ⟨h0, h1⟩ := h i (List.mem_cons_self i rest)
      simp [resolveRange, pyIndex, h0, h1,
        ih (fun j hj => h j (List.mem_cons_of_mem i hj))]

theorem pyRange_map_toNat_toFinset {a b : ℤ} (h : 0 ≤ a) :
    ((pyRange a b).map Int.toNat).toFinset = Finset.Ico a.toNat b.toNat := by
  ext x
  simp only [List.mem_toFinset, List.mem_map, Finset.mem_Ico]
  constructor
  · rintro ⟨i, hi, rfl⟩
    rw [mem_pyRange] at hi
    omega
  · intro hx
    exact ⟨(x : ℤ), mem_pyRange.mpr (by omega), by omega⟩

/-- Full evaluation of `apply_lane_strategy` on a request that is not
over budget: the clamp branch is skipped and every loop index is in range,
so the call succeeds and each stored lane set is an interval (the HCL set an
intersection of two intervals). -/
theorem applyLaneStrategy_eq_of_valid (s : LMState) (m n : ℤ)
    (hm : 0 ≤ m) (hn : 0 ≤ n) (hmn : m + n ≤ (s.total : ℤ)) :
    applyLaneStrategy s m n = some { s with
      current_m := m, current_n := n,
      current_r := (s.total : ℤ) - m - n,
      hml_lanes := Finset.Ico ((s.total : ℤ) - m - n).toNat
        ((s.total : ℤ) - m - n + n).toNat,
      cdl_lanes := Finset.Ico ((s.total : ℤ) - m - n + n).toNat s.total,
      hcl_lanes := Finset.Ico (max s.current_r ((s.total : ℤ) - m - n + n)).toNat
          (min (s.current_r + s.current_n) (s.total : ℤ)).toNat
        ∩ Finset.Ico ((s.total : ℤ) - m - n + n).toNat s.total,
      hcl_clearance_map :=
        Finset.Ico (max s.current_r ((s.total : ℤ) - m - n + n)).toNat
          (min (s.current_r + s.current_n) (s.total : ℤ)).toNat
        ∩ Finset.Ico ((s.total : ℤ) - m - n + n).toNat s.total } := by
  have hcond : ¬ ((s.total : ℤ) < m + n) := not_lt.mpr hmn
  have hb1 : ∀ i ∈ pyRange ((s.total : ℤ) - m - n) ((s.total : ℤ) - m - n + n),
      0 ≤ i ∧ i < (s.total : ℤ) := by
    intro i hi; rw [mem_pyRange] at hi; omega
  have hb2 : ∀ i ∈ pyRange ((s.total : ℤ) - m - n + n) (s.total : ℤ),
      0 ≤ i ∧ i < (s.total : ℤ) := by
    intro i hi; rw [mem_pyRange] at hi; omega
  have hb3 : ∀ i ∈ pyRange (max s.current_r ((s.total : ℤ) - m - n + n))
      (min (s.current_r + s.current_n) (s.total : ℤ)),
      0 ≤ i ∧ i < (s.total : ℤ) := by
    intro i hi; rw [mem_pyRange] at hi; omega
  simp only [applyLaneStrategy, gt_iff_lt, if_neg hcond,
    resolveRange_eq_of_bounds _ _ hb1, resolveRange_eq_of_bounds _ _ hb2,
    resolveRange_eq_of_bounds _ _ hb3, Option.bind_eq_bind, Option.some_bind,
    pure]
  rw [List.toFinset_filter]
  simp only [pyRange_map_toNat_toFinset (a := (s.total : ℤ) - m - n) (by omega),
    pyRange_map_toNat_toFinset (a := (s.total : ℤ) - m - n + n) (by omega),
    pyRange_map_toNat_toFinset
      (a := max s.current_r ((s.total : ℤ) - m - n + n)) (by omega),
    Int.toNat_natCast, decide_eq_true_eq, Finset.filter_mem_eq_inter]

/-- The clamp branch of `apply_lane_strategy`: an over-budget call behaves
exactly like the call on the clamped pair `(min m TOTAL, min n (TOTAL - m))`. -/
theorem applyLaneStrategy_overbudget (s : LMState) (m n : ℤ)
    (hover : (s.total : ℤ) < m + n) :
    applyLaneStrategy s m n
      = applyLaneStrategy s (min m (s.total : ℤ))
          (min n ((s.total : ℤ) - min m (s.total : ℤ))) := by
  have h2 : ¬ ((s.total : ℤ) < min m (s.total : ℤ)
      + min n ((s.total : ℤ) - min m (s.total : ℤ))) := by omega
  simp only [applyLaneStrategy, gt_iff_lt, if_pos hover, if_neg h2]

/-- C1: for every request with `m ≥ 0`, `n ≥ 0` and `m + n ≤ TOTAL`, after
`apply_lane_strategy(m, n)` the stored partition satisfies
`r + n + m = TOTAL`, the HML lane set has exactly `n` elements, the CDL lane
set has exactly `m` elements, and HML and CDL are disjoint. -/
theorem C1_apply_lane_strategy_partition (s : LMState) (m n : ℤ)
    (hm : 0 ≤ m) (hn : 0 ≤ n) (hmn : m + n ≤ (s.total : ℤ)) :
    ∃ s2, applyLaneStrategy s m n = some s2 ∧
      s2.current_r + s2.current_n + s2.current_m = (s.total : ℤ) ∧
      (s2.hml_lanes.card : ℤ) = n ∧
      (s2.cdl_lanes.card : ℤ) = m ∧
      s2.hml_lanes ∩ s2.cdl_lanes = ∅ := by
  refine ⟨_, applyLaneStrategy_eq_of_valid s m n hm hn hmn, by ring, ?_, ?_, ?_⟩
  · simp only [Nat.card_Ico]
    omega
  · simp only [Nat.card_Ico]
    omega
  · rw [Finset.Ico_inter_Ico]
    apply Finset.Ico_eq_empty
    omega

/-- Witness for C1 at `TOTAL = 10`, `m = 3`, `n = 2`. -/
theorem C1_witness :
    ∃ s2, applyLaneStrategy (lmInit 10) 3 2 = some s2 ∧
      s2.current_r + s2.current_n + s2.current_m = ((lmInit 10).total : ℤ) ∧
      (s2.hml_lanes.card : ℤ) = 2 ∧
      (s2.cdl_lanes.card : ℤ) = 3 ∧
      s2.hml_lanes ∩ s2.cdl_lanes = ∅ :=
  C1_apply_lane_strategy_partition (lmInit 10) 3 2 (by norm_num) (by norm_num)
    (by norm_num [lmInit])

/-- C2 counterexample: `apply_lane_strategy` does not clamp negative inputs
and can raise `IndexError`, falsifying "the call never raises an exception for
any integer inputs".  With `TOTAL = 3` the call `apply_lane_strategy(-1, 2)`
skips the clamp (since `-1 + 2 ≤ 3`), computes `r = 3 - (-1) - 2 = 2`, and the
HML loop runs over `range(2, 4)` whose index `3` is out of bounds. -/
theorem C2_counterexample :
    applyLaneStrategy (lmInit 3) (-1) 2 = none := by decide

/-- C2 (amended): the clamp happens only on an over-budget request
(`m + n > TOTAL`), and only from above: `m` to `min m TOTAL` and `n` to
`min n (TOTAL - m)` with the clamped `m`.  For every over-budget request with
`m ≥ 0` and `n ≥ 0` the call succeeds (does not raise) and the stored
`(r, n, m)` are the clamped values with `r + n + m = TOTAL` and `r ≥ 0`. -/
theorem C2_amended_overbudget_clamp (s : LMState) (m n : ℤ)
    (hm : 0 ≤ m) (hn : 0 ≤ n) (hover : (s.total : ℤ) < m + n) :
    ∃ s2, applyLaneStrategy s m n = some s2 ∧
      s2.current_m = min m (s.total : ℤ) ∧
      s2.current_n = min n ((s.total : ℤ) - min m (s.total : ℤ)) ∧
      s2.current_r + s2.current_n + s2.current_m = (s.total : ℤ) ∧
      0 ≤ s2.current_r := by
  rw [applyLaneStrategy_overbudget s m n hover]
  refine ⟨_, applyLaneStrategy_eq_of_valid s _ _ (by omega) (by omega) (by omega),
    rfl, rfl, by ring, by simp only; omega⟩

/-- Witness for C2 (amended) at `TOTAL = 3`, `m = 2`, `n = 5`. -/
theorem C2_amended_witness :
    ∃ s2, applyLaneStrategy (lmInit 3) 2 5 = some s2 ∧
      s2.current_m = min 2 (((lmInit 3).total : ℤ)) ∧
      s2.current_n = min 5 (((lmInit 3).total : ℤ) - min 2 ((lmInit 3).total : ℤ)) ∧
      s2.current_r + s2.current_n + s2.current_m = ((lmInit 3).total : ℤ) ∧
      0 ≤ s2.current_r :=
  C2_amended_overbudget_clamp (lmInit 3) 2 5 (by norm_num) (by norm_num)
    (by norm_num [lmInit])

/-- C3: after every `apply_lane_strategy(m, n)` call on a request with
`m, n ≥ 0` (over-budget requests included, via the clamp) the stored HCL set
is exactly the intersection of the immediately preceding cycle's HML index
range `[r_prev, r_prev + n_prev)` with the new cycle's CDL index range
`[r + n, TOTAL)`; and concretely, from `(r = 0, n = 10, m = 0)` the call
`apply_lane_strategy(5, 5)` makes HCL the last five segments. -/
theorem C3_hcl_is_intersection :
    (∀ (s : LMState) (m n : ℤ), 0 ≤ m → 0 ≤ n →
      ∀ s2, applyLaneStrategy s m n = some s2 →
        s2.hcl_lanes
          = Finset.Ico s.current_r.toNat (s.current_r + s.current_n).toNat
            ∩ Finset.Ico (s2.current_r + s2.current_n).toNat s.total)
    ∧ ((applyLaneStrategy (lmInit 10) 0 10).bind
          (fun s1 => applyLaneStrategy s1 5 5)).map LMState.hcl_lanes
        = some (Finset.Ico 5 10) := by
  constructor
  · intro s m n hm hn s2 h2
    by_cases hover : (s.total : ℤ) < m + n
    · rw [applyLaneStrategy_overbudget s m n hover,
        applyLaneStrategy_eq_of_valid s _ _ (by omega) (by omega) (by omega)]
        at h2
      injection h2 with h2
      subst h2
      dsimp only
      rw [Finset.Ico_inter_Ico, Finset.Ico_inter_Ico]
      congr 1 <;> omega
    · rw [applyLaneStrategy_eq_of_valid s m n hm hn (by omega)] at h2
      injection h2 with h2
      subst h2
      dsimp only
      rw [Finset.Ico_inter_Ico, Finset.Ico_inter_Ico]
      congr 1 <;> omega
  · decide

/-- Witness for the universally quantified part of C3, at the fresh state with
`TOTAL = 10` and the call `apply_lane_strategy(2, 3)` (empty intersection of
the empty previous HML range with the new CDL range). -/
theorem C3_witness :
    (∅ : Finset ℕ) = Finset.Ico 10 10 ∩ Finset.Ico 8 10 :=
  C3_hcl_is_intersection.1 (lmInit 10) 2 3 (by norm_num) (by norm_num)
    { total := 10, current_m := 2, current_n := 3, current_r := 5,
      hml_lanes := Finset.Ico 5 8, cdl_lanes := Finset.Ico 8 10,
      hcl_lanes := ∅, hcl_clearance_map := ∅ }
    (by decide)

/-- C6: a lane in the HCL clearance set is removed by `step()` — both from the
set and from the clearance map — exactly on a tick where no HV-class vehicle
occupies it. -/
theorem C6_hcl_cleared_iff_no_hv (hasHV : ℕ → Bool) (s : LMState) (l : ℕ)
    (hl : l ∈ s.hcl_lanes) :
    (l ∉ (lmStep hasHV s).hcl_lanes ↔ hasHV l = false)
    ∧ (l ∈ s.hcl_clearance_map →
        (l ∉ (lmStep hasHV s).hcl_clearance_map ↔ hasHV l = false)) := by
  have hne : s.hcl_lanes ≠ ∅ := Finset.ne_empty_of_mem hl
  simp only [lmStep, if_neg hne]
  constructor
  · simp only [Finset.mem_sdiff, Finset.mem_filter, hl, true_and, not_and,
      not_not]
  · intro hmap
    simp only [Finset.mem_sdiff, Finset.mem_filter, hmap, hl, true_and,
      not_and, not_not]

/-- Witness for C6: a single tracked clearance lane `3` with no HV on it is
removed from both the HCL set and the clearance map. -/
theorem C6_witness :
    ((3 ∉ (lmStep (fun _ => false)
        { total := 10, current_m := 0, current_n := 0, current_r := 0,
          hml_lanes := ∅, cdl_lanes := {3}, hcl_lanes := {3},
          hcl_clearance_map := {3} }).hcl_lanes ↔ (false = false))
      ∧ ((3 : ℕ) ∈ ({3} : Finset ℕ) →
        (3 ∉ (lmStep (fun _ => false)
          { total := 10, current_m := 0, current_n := 0, current_r := 0,
            hml_lanes := ∅, cdl_lanes := {3}, hcl_lanes := {3},
            hcl_clearance_map := {3} }).hcl_clearance_map ↔ (false = false)))) :=
  C6_hcl_cleared_iff_no_hv (fun _ => false)
    { total := 10, current_m := 0, current_n := 0, current_r := 0,
      hml_lanes := ∅, cdl_lanes := {3}, hcl_lanes := {3},
      hcl_clearance_map := {3} } 3 (by decide)

/-!
## 2D time-to-collision

Embedding of `V1.6/controller/environment/twod_ttc_calculator.py` (and, in
the `V4` namespace, of the byte-identical core of
`V4/controller/environment/twod_ttc_calculator.py`).  A state tuple
`(x, y, v, theta_rad, length, width)` is modelled as a `List ℝ` (Python
floats as reals); unpacking a tuple of any other arity raises `ValueError`,
which `calculate_2d_ttc` catches and turns into `float('inf')`.  The value
`+infinity` is modelled as `none : Option ℝ`.
-/

/-- The function `_get_relative_kinematics(state_i, state_j)`: rotates the displacement
and the relative velocity of `j` with respect to `i` by `-theta_i` and
returns `(s_l, s_t, v_l, v_t)`; `none` models the `ValueError` raised by
unpacking a tuple that is not a 6-tuple. -/
noncomputable def getRelativeKinematics (state_i state_j : List ℝ) :
    Option (ℝ × ℝ × ℝ × ℝ) :=
  match state_i, state_j with
  | [x_i, y_i, v_i, theta_i, _l_i, _w_i], [x_j, y_j, v_j, theta_j, _l_j, _w_j] =>
      let dx := x_j - x_i
      let dy := y_j - y_i
      let cos_i := Real.cos theta_i
      let sin_i := Real.sin theta_i
      let s_t := dx * cos_i + dy * sin_i
      let s_l := -dx * sin_i + dy * cos_i
      let v_ix := v_i * Real.cos theta_i
      let v_iy := v_i * Real.sin theta_i
      let v_jx := v_j * Real.cos theta_j
      let v_jy := v_j * Real.sin theta_j
      let dvx := v_jx - v_ix
      let dvy := v_jy - v_iy
      let v_t := dvx * cos_i + dvy * sin_i
      let v_l := -dvx * sin_i + dvy * cos_i
      some (s_l, s_t, v_l, v_t)
  | _, _ => none

section TTCDefs
open Classical

/-- One axis of `calculate_2d_ttc`: the `T_long` block (lines 63–69) and the
`T_lat` block (lines 72–78) are the same computation, on `(s_l, v_l, L)` and
`(s_t, v_t, W)` respectively: the candidate critical time is `(d - dim)/v`
when `v > 0.01` and `(d + dim)/v` when `v < -0.01`, kept only when
non-negative; in every other case the axis contributes `float('inf')`. -/
noncomputable def axisTTC (d v dim : ℝ) : Option ℝ :=
  if v > 0.01 then
    if (d - dim) / v ≥ 0 then some ((d - dim) / v) else none
  else if v < -0.01 then
    if (d + dim) / v ≥ 0 then some ((d + dim) / v) else none
  else none

/-- Python `min` on values that may be `float('inf')` (`none`). -/
noncomputable def optMin (a b : Option ℝ) : Option ℝ :=
  match a, b with
  | none, y => y
  | some x, none => some x
  | some x, some y => some (min x y)

/-- The function `calculate_2d_ttc(state_i, state_j)` of the V1.6 source.  `L = state_i[4]`
and `W = state_i[5]` are read after the `try` block, which is only reached
when `state_i` unpacked as a 6-tuple, so the `getD` defaults are dead. -/
noncomputable def calculate_2d_ttc (state_i state_j : List ℝ) : Option ℝ :=
  match getRelativeKinematics state_i state_j with
  | none => none
  | some (s_l, s_t, v_l, v_t) =>
      let L := state_i.getD 4 0
      let W := state_i.getD 5 0
      let T_long := axisTTC s_l v_l L
      let T_lat := axisTTC s_t v_t W
      if |s_t| < W ∧ |s_l| < L then some 0
      else if |s_t| < W then T_long
      else if |s_l| < L then T_lat
      else if T_long ≠ none ∨ T_lat ≠ none then optMin T_long T_lat
      else none

namespace V4

/-- The function `_get_relative_kinematics` of the V4 source (byte-identical logic). -/
noncomputable def getRelativeKinematics (state_i state_j : List ℝ) :
    Option (ℝ × ℝ × ℝ × ℝ) :=
  match state_i, state_j with
  | [x_i, y_i, v_i, theta_i, _l_i, _w_i], [x_j, y_j, v_j, theta_j, _l_j, _w_j] =>
      let dx := x_j - x_i
      let dy := y_j - y_i
      let cos_i := Real.cos theta_i
      let sin_i := Real.sin theta_i
      let s_t := dx * cos_i + dy * sin_i
      let s_l := -dx * sin_i + dy * cos_i
      let v_ix := v_i * Real.cos theta_i
      let v_iy := v_i * Real.sin theta_i
      let v_jx := v_j * Real.cos theta_j
      let v_jy := v_j * Real.sin theta_j
      let dvx := v_jx - v_ix
      let dvy := v_jy - v_iy
      let v_t := dvx * cos_i + dvy * sin_i
      let v_l := -dvx * sin_i + dvy * cos_i
      some (s_l, s_t, v_l, v_t)
  | _, _ => none

/-- The function `calculate_2d_ttc` of the V4 source (byte-identical logic). -/
noncomputable def calculate_2d_ttc (state_i state_j : List ℝ) : Option ℝ :=
  match V4.getRelativeKinematics state_i state_j with
  | none => none
  | some (s_l, s_t, v_l, v_t) =>
      let L := state_i.getD 4 0
      let W := state_i.getD 5 0
      let T_long := axisTTC s_l v_l L
      let T_lat := axisTTC s_t v_t W
      if |s_t| < W ∧ |s_l| < L then some 0
      else if |s_t| < W then T_long
      else if |s_l| < L then T_lat
      else if T_long ≠ none ∨ T_lat ≠ none then optMin T_long T_lat
      else none

end V4

/-!
### Reference definitions for the TTC conformance claim

`ttc2dSpec` is written from the specification's words: axes are rotated into
the ego body frame, the longitudinal (along-heading) axis uses half the
combined vehicle lengths and the lateral axis half the combined widths, an
axis contributes a critical time only while it is closing, footprints
overlapping in both axes give `0`, in exactly one axis the still-separating
axis's critical time, in neither the minimum of the two.
-/

/-- Critical time of one axis per the spec's words: only when the axis is
closing (offset and relative velocity of opposite signs), the offset minus
the half-combined dimension divided by the closing speed. -/
noncomputable def refCritTime (d v halfDim : ℝ) : Option ℝ :=
  if (0 < d ∧ v < 0) ∨ (d < 0 ∧ 0 < v) then some ((|d| - halfDim) / |v|)
  else none

/-- The 2D-TTC reference definition, from the spec's words (claim C4). -/
noncomputable def ttc2dSpec (state_i state_j : List ℝ) : Option ℝ :=
  match state_i, state_j with
  | [x_i, y_i, v_i, theta_i, l_i, w_i], [x_j, y_j, v_j, theta_j, l_j, w_j] =>
      let dAlong := (x_j - x_i) * Real.cos theta_i + (y_j - y_i) * Real.sin theta_i
      let dPerp := -(x_j - x_i) * Real.sin theta_i + (y_j - y_i) * Real.cos theta_i
      let vAlong := (v_j * Real.cos theta_j - v_i * Real.cos theta_i) * Real.cos theta_i
        + (v_j * Real.sin theta_j - v_i * Real.sin theta_i) * Real.sin theta_i
      let vPerp := -(v_j * Real.cos theta_j - v_i * Real.cos theta_i) * Real.sin theta_i
        + (v_j * Real.sin theta_j - v_i * Real.sin theta_i) * Real.cos theta_i
      let halfL := (l_i + l_j) / 2
      let halfW := (w_i + w_j) / 2
      let tLong := refCritTime dAlong vAlong halfL
      let tLat := refCritTime dPerp vPerp halfW
      if |dAlong| < halfL ∧ |dPerp| < halfW then some 0
      else if |dAlong| < halfL then tLat
      else if |dPerp| < halfW then tLong
      else optMin tLong tLat
  | _, _ => none

/-- Per-axis critical time as the code actually computes it, in geometric
terms: an axis contributes a finite time exactly when the relative speed
along it exceeds the `0.01` guard and the offset lies at or beyond the
dimension `dim` on the side the relative velocity points away from (which is
what the code's `T_crit >= 0` filter amounts to). -/
noncomputable def refCritTimeCode (d v dim : ℝ) : Option ℝ :=
  if 0.01 < v ∧ dim ≤ d then some ((d - dim) / v)
  else if v < -0.01 ∧ d ≤ -dim then some ((d + dim) / v)
  else none

/-- The reference definition amended to the conventions the code implements:
the along-heading offset is paired with the ego vehicle's full width and the
perpendicular offset with the ego vehicle's full length (ego-only dimensions,
not half-combined ones), each axis uses the `0.01` speed guard and the
non-negativity filter of `refCritTimeCode`, and the case structure is: `0` on
overlap in both axes, the other axis's critical time on overlap in exactly
one axis, the minimum of the two critical times otherwise. -/
noncomputable def ttc2dCodeRef (state_i state_j : List ℝ) : Option ℝ :=
  match state_i, state_j with
  | [x_i, y_i, v_i, theta_i, l_i, w_i], [x_j, y_j, v_j, theta_j, _l_j, _w_j] =>
      let dAlong := (x_j - x_i) * Real.cos theta_i + (y_j - y_i) * Real.sin theta_i
      let dPerp := -(x_j - x_i) * Real.sin theta_i + (y_j - y_i) * Real.cos theta_i
      let vAlong := (v_j * Real.cos theta_j - v_i * Real.cos theta_i) * Real.cos theta_i
        + (v_j * Real.sin theta_j - v_i * Real.sin theta_i) * Real.sin theta_i
      let vPerp := -(v_j * Real.cos theta_j - v_i * Real.cos theta_i) * Real.sin theta_i
        + (v_j * Real.sin theta_j - v_i * Real.sin theta_i) * Real.cos theta_i
      let tPerpAxis := refCritTimeCode dPerp vPerp l_i
      let tAlongAxis := refCritTimeCode dAlong vAlong w_i
      if |dAlong| < w_i ∧ |dPerp| < l_i then some 0
      else if |dAlong| < w_i then tPerpAxis
      else if |dPerp| < l_i then tAlongAxis
      else optMin tPerpAxis tAlongAxis
  | _, _ => none

end TTCDefs

section TTCThms
open Classical

/-- The code's per-axis computation coincides with its geometric restatement
`refCritTimeCode`: the sign filter `T_crit >= 0` is exactly the condition
that the offset lies at or beyond `dim` on the matching side. -/
theorem axisTTC_eq_refCritTimeCode (d v dim : ℝ) :
    axisTTC d v dim = refCritTimeCode d v dim := by
  unfold axisTTC refCritTimeCode
  by_cases h1 : (0.01 : ℝ) < v
  · have hv : (0 : ℝ) < v := lt_trans (by norm_num) h1
    have hnot3 : ¬ v < -0.01 := by linarith
    by_cases h2 : (0 : ℝ) ≤ (d - dim) / v
    · have hd : dim ≤ d := by
        rw [le_div_iff₀ hv] at h2
        linarith
      simp [h1, h2, hd]
    · have hd : ¬ dim ≤ d := fun hc => h2 (div_nonneg (by linarith) hv.le)
      simp [h1, h2, hd, hnot3]
  · by_cases h3 : v < -0.01
    · have hv : v < 0 := lt_trans h3 (by norm_num)
      by_cases h4 : (0 : ℝ) ≤ (d + dim) / v
      · have hd : d ≤ -dim := by
          rcases div_nonneg_iff.mp h4 with ⟨ha, hb⟩ | ⟨ha, hb⟩ <;> linarith
        simp [h1, h3, h4, hd]
      · have hd : ¬ d ≤ -dim := fun hc =>
          h4 (div_nonneg_iff.mpr (Or.inr ⟨by linarith, hv.le⟩))
        simp [h1, h3, h4, hd]
    · simp [h1, h3]

/-- The guard `T_long != inf or T_lat != inf` before the final `min` is
redundant: `min(inf, inf) = inf`. -/
theorem optMin_guard_eq (a b : Option ℝ) :
    (if a ≠ none ∨ b ≠ none then optMin a b else none) = optMin a b := by
  rcases a with _ | x <;> rcases b with _ | y <;> simp [optMin]

/-- C10: the TTC cores of the two historical variants are extensionally
equal — for every pair of input state tuples, `calculate_2d_ttc` of the V1.6
source and `calculate_2d_ttc` of the V4 source return the same value. -/
theorem C10_ttc_variants_extensionally_equal :
    ∀ state_i state_j : List ℝ,
      calculate_2d_ttc state_i state_j = V4.calculate_2d_ttc state_i state_j :=
  fun _ _ => rfl

/-- C4 counterexample: the code does not conform to the spec's reference
definition.  With ego `(x=0, y=0, v=1, θ=0, l=2, w=2)` and the other vehicle
`(x=10, y=0, v=0, θ=0, l=2, w=2)`, the reference yields the longitudinal
critical time `(10 - (2+2)/2) / 1 = 8` (the footprints overlap laterally
only), while the code returns `+infinity`: it pairs the along-heading offset
`10` with the ego width and the zero lateral offset with the ego length, and
its `T_crit >= 0` filter discards the approaching axis. -/
theorem C4_counterexample :
    calculate_2d_ttc [0, 0, 1, 0, 2, 2] [10, 0, 0, 0, 2, 2]
      ≠ ttc2dSpec [0, 0, 1, 0, 2, 2] [10, 0, 0, 0, 2, 2] := by
  have h1 : calculate_2d_ttc [0, 0, 1, 0, 2, 2] [10, 0, 0, 0, 2, 2] = none := by
    norm_num [calculate_2d_ttc, getRelativeKinematics, axisTTC, optMin,
      Real.cos_zero, Real.sin_zero]
  have h2 : ttc2dSpec [0, 0, 1, 0, 2, 2] [10, 0, 0, 0, 2, 2] = some 8 := by
    norm_num [ttc2dSpec, refCritTime, optMin, Real.cos_zero, Real.sin_zero]
  rw [h1, h2]
  simp

/-- C4 (amended): `calculate_2d_ttc` conforms to the reference definition
with the conventions the code implements (`ttc2dCodeRef`): the along-heading
offset is paired with the ego vehicle's full width and the perpendicular
offset with the ego vehicle's full length — ego-only dimensions instead of
half-combined ones — and each axis contributes only under the `0.01` speed
guard with a non-negative critical time; the overlap case structure is as the
spec states it. -/
theorem C4_amended_code_conforms (state_i state_j : List ℝ) :
    calculate_2d_ttc state_i state_j = ttc2dCodeRef state_i state_j := by
  rcases state_i with _ | ⟨x_i, _ | ⟨y_i, _ | ⟨v_i, _ | ⟨t_i, _ | ⟨l_i, _ | ⟨w_i, _ | ⟨a_i, r_i⟩⟩⟩⟩⟩⟩⟩ <;>
    rcases state_j with _ | ⟨x_j, _ | ⟨y_j, _ | ⟨v_j, _ | ⟨t_j, _ | ⟨l_j, _ | ⟨w_j, _ | ⟨a_j, r_j⟩⟩⟩⟩⟩⟩⟩ <;>
    first
      | rfl
      | simp only [calculate_2d_ttc, ttc2dCodeRef, getRelativeKinematics,
          List.getD_cons_succ, List.getD_cons_zero,
          axisTTC_eq_refCritTimeCode, optMin_guard_eq]

/-- Shape lemma: `_get_relative_kinematics` raises `ValueError` (returns
`none`) exactly on tuples that are not 6-tuples. -/
theorem getRelativeKinematics_eq_none (state_i state_j : List ℝ)
    (h : state_i.length ≠ 6 ∨ state_j.length ≠ 6) :
    getRelativeKinematics state_i state_j = none := by
  rcases state_i with _ | ⟨x_i, _ | ⟨y_i, _ | ⟨v_i, _ | ⟨t_i, _ | ⟨l_i, _ | ⟨w_i, _ | ⟨a_i, r_i⟩⟩⟩⟩⟩⟩⟩ <;>
    rcases state_j with _ | ⟨x_j, _ | ⟨y_j, _ | ⟨v_j, _ | ⟨t_j, _ | ⟨l_j, _ | ⟨w_j, _ | ⟨a_j, r_j⟩⟩⟩⟩⟩⟩⟩ <;>
    first
      | rfl
      | simp at h

/-- C7 counterexample: an input pair with exactly-zero relative velocity in
which the two footprints coincide is a degenerate input, yet the code returns
`0` (its both-axes-overlap rule takes precedence), not `+infinity`. -/
theorem C7_counterexample :
    calculate_2d_ttc [0, 0, 0, 0, 2, 2] [0, 0, 0, 0, 2, 2] = some 0
    ∧ some (0 : ℝ) ≠ (none : Option ℝ) := by
  constructor
  · norm_num [calculate_2d_ttc, getRelativeKinematics, Real.cos_zero,
      Real.sin_zero]
  · simp

/-- C7 (amended): with zero relative velocity in both body-frame axes both
per-axis times are `+infinity` (`none`), so whenever the footprints do not
overlap in both axes the result is `+infinity`; and a malformed state tuple
(not a 6-tuple) always resolves to `+infinity` instead of raising.  (When the
footprints do overlap in both axes the code returns `0`, per its overlap
rule, which is the one amendment to the claim.) -/
theorem C7_degenerate_inputs_resolve_to_infinity :
    (∀ (state_i state_j : List ℝ) (s_l s_t : ℝ),
        getRelativeKinematics state_i state_j = some (s_l, s_t, 0, 0) →
        ¬ (|s_t| < state_i.getD 5 0 ∧ |s_l| < state_i.getD 4 0) →
        calculate_2d_ttc state_i state_j = none)
    ∧ (∀ state_i state_j : List ℝ,
        state_i.length ≠ 6 ∨ state_j.length ≠ 6 →
        calculate_2d_ttc state_i state_j = none) := by
  constructor
  · intro si sj s_l s_t h hov
    have hax : ∀ d dim : ℝ, axisTTC d 0 dim = none := by
      intro d dim
      norm_num [axisTTC]
    simp only [calculate_2d_ttc, h, hax]
    split_ifs with h1 <;> first | exact absurd h1 hov | rfl
  · intro si sj h
    simp [calculate_2d_ttc, getRelativeKinematics_eq_none si sj h]

/-- Witness for C7: two stationary vehicles 10 m apart resolve to
`+infinity`, and so does a malformed (empty) pair of state tuples. -/
theorem C7_witness :
    calculate_2d_ttc [0, 0, 0, 0, 2, 2] [10, 0, 0, 0, 2, 2] = none
    ∧ calculate_2d_ttc [] [] = none :=
  ⟨C7_degenerate_inputs_resolve_to_infinity.1 [0, 0, 0, 0, 2, 2]
      [10, 0, 0, 0, 2, 2] 0 10
      (by norm_num [getRelativeKinematics, Real.cos_zero, Real.sin_zero])
      (by norm_num),
    C7_degenerate_inputs_resolve_to_infinity.2 [] [] (by norm_num)⟩

end TTCThms

/-!
## Vehicle controller

Embedding of the per-vehicle decision code of
`V1.6/controller/controllers/vehicle_controller.py`.  Python floats are
modelled as `ℚ` (the code performs exact field arithmetic and comparisons
on them, no trigonometry).  Vehicle ids and vehicle-type ids are modelled as
`ℕ`; the class test `v_type.startswith("cav")` on a type-id string is
abstracted into a classifier `isCavType : ℕ → Bool` passed as a parameter.
Engine-derived quantities (subscription data, neighbor search results, the
uniform random sample, the 2D-TTC safety verdict) enter as parameters; the
per-vehicle maps become association lists where `List.lookup` reads the most
recent binding, matching Python dict lookup.
-/

/-- Configuration scalars read by `_calculate_cav_hml_motivation` and
`manage_dcdl_lane_changing`. -/
structure MotivationConfig where
  SIM_STEP_S : ℚ
  CUMULATIVE_DISSATISFACTION_S : ℚ
  SPEED_DIFF_THRESHOLD_MS : ℚ

/-- The method `_calculate_cav_hml_motivation(veh_id, veh_data, target_lane_index)`:
pure core over the vehicle's dissatisfaction memory entry `mem` (`0.0` when
absent), its current speed (`VAR_SPEED`), its allowed speed
(`VAR_ALLOWED_SPEED`), and the `speed_gain` that `_get_speed_gain` derives
from engine lookups (a parameter here; it does not touch the accumulator).
Returns `(new memory entry, motivation probability)`. -/
def calculateCavHmlMotivation (cfg : MotivationConfig)
    (mem v_current v_desired speed_gain : ℚ) : ℚ × ℚ :=
  let dissatisfaction :=
    if v_desired > 1 then
      max 0 ((v_desired - v_current) / v_desired) * cfg.SIM_STEP_S
    else 0
  let current_total_d := mem + dissatisfaction
  if current_total_d ≤ cfg.CUMULATIVE_DISSATISFACTION_S then
    (current_total_d, 0)
  else if speed_gain ≤ 0 then (current_total_d, 0)
  else if speed_gain < cfg.SPEED_DIFF_THRESHOLD_MS then
    (current_total_d, speed_gain / cfg.SPEED_DIFF_THRESHOLD_MS)
  else (0, 1)

/-- One tick of `manage_dcdl_lane_changing` for a CAV on an HML lane
(strategy 2 of `_get_lane_change_motivation`): the motivation comes from
`_calculate_cav_hml_motivation`, `coop_request` is `1.0` exactly when the
motivation is `1.0`, a sub-unit request must win the uniform draw
(`random.random() >= prob_lc` aborts), a safe change issues
`traci.vehicle.changeLane`, and an unsafe full-strength one calls
`attempt_lane_change_cooperation` instead.  `rand` is the drawn sample and
`is_safe` the verdict of `_assess_lane_change_safety_2D_TTC`.  Returns
`(new dissatisfaction memory entry, lane-change command issued,
cooperation attempted)`. -/
def manageCavHmlTick (cfg : MotivationConfig)
    (mem v_current v_desired speed_gain rand : ℚ) (is_safe : Bool) :
    ℚ × Bool × Bool :=
  let res := calculateCavHmlMotivation cfg mem v_current v_desired speed_gain
  let mem2 := res.1
  let prob_lc := res.2
  let coop_request : ℚ := if prob_lc > 0 then (if prob_lc = 1 then 1 else 0) else 0
  if prob_lc = 0 then (mem2, false, false)
  else if coop_request < 1 ∧ rand ≥ prob_lc then (mem2, false, false)
  else if is_safe then (mem2, true, false)
  else if prob_lc = 1 ∧ coop_request = 1 then (mem2, false, true)
  else (mem2, false, false)

/-- C5 counterexample: a stopped CAV whose desired speed is `0.5 m/s` —
strictly positive, but at or below the code's low-speed guard
`v_desired > 1.0` — accumulates nothing: the accumulator stays `0` instead
of increasing by `step_length = 1`. -/
theorem C5_counterexample :
    (0 : ℚ) < 1/2
    ∧ (calculateCavHmlMotivation ⟨1, 100, 3⟩ 0 0 (1/2) 0).1 ≠ 0 + 1 := by
  constructor
  · norm_num
  · norm_num [calculateCavHmlMotivation]

/-- C5 (amended): for a CAV on a transitional lane at speed `0` whose desired
(allowed) speed is strictly greater than the low-speed guard `1.0 m/s`, each
tick adds exactly `step_length` to the dissatisfaction accumulator (with
motivation still `0`), as long as the accumulator has not yet crossed the
cumulative-dissatisfaction threshold. -/
theorem C5_amended_stopped_cav_accumulates_step (cfg : MotivationConfig)
    (mem v_desired speed_gain : ℚ) (hv : 1 < v_desired)
    (hbelow : mem + cfg.SIM_STEP_S ≤ cfg.CUMULATIVE_DISSATISFACTION_S) :
    calculateCavHmlMotivation cfg mem 0 v_desired speed_gain
      = (mem + cfg.SIM_STEP_S, 0) := by
  unfold calculateCavHmlMotivation
  have hv0 : v_desired ≠ 0 := by linarith
  have hdiv : (v_desired - 0) / v_desired = 1 := by
    rw [sub_zero, div_self hv0]
  rw [if_pos hv, hdiv]
  have hmax : max (0 : ℚ) 1 = 1 := by norm_num
  rw [hmax, one_mul, if_pos hbelow]

/-- Witness for C5 (amended): `step_length = 1`, threshold `100`, desired
speed `2 m/s`, empty accumulator. -/
theorem C5_witness :
    calculateCavHmlMotivation ⟨1, 100, 3⟩ 0 0 2 0 = (0 + 1, 0) :=
  C5_amended_stopped_cav_accumulates_step ⟨1, 100, 3⟩ 0 2 0 (by norm_num)
    (by norm_num)

/-- C8 counterexample: with threshold `5`, speed-gain threshold `3`, an
accumulator of `10`, a stopped vehicle with desired speed `2` and speed gain
`4`, the tick computes full motivation, resets the accumulator `10 → 0`, the
safety check fails, and no lane change is issued (cooperation is attempted
instead) — a reset without a successful lane change, refuting "reset ...
exactly when the vehicle completes a successful full-motivation lane
change". -/
theorem C8_counterexample :
    manageCavHmlTick ⟨1, 5, 3⟩ 10 0 2 4 0 false = (0, false, true)
    ∧ (0 : ℚ) < 10 := by
  constructor
  · norm_num [manageCavHmlTick, calculateCavHmlMotivation]
  · norm_num

/-- C8 (amended): the dissatisfaction accumulator never decreases across a
tick except for the reset to zero that happens exactly when full motivation
is computed (`prob = 1.0`, i.e. the threshold has been crossed and the speed
gain is at or above the speed-gain threshold) — and this reset is performed
during motivation evaluation, so the memory after `manage_dcdl_lane_changing`
does not depend on the random draw or on whether the lane change was safe or
executed. -/
theorem C8_amended_monotone_except_full_motivation_reset
    (cfg : MotivationConfig) (hstep : 0 ≤ cfg.SIM_STEP_S)
    (mem v_current v_desired speed_gain : ℚ) :
    (mem ≤ (calculateCavHmlMotivation cfg mem v_current v_desired speed_gain).1
      ∨ calculateCavHmlMotivation cfg mem v_current v_desired speed_gain = (0, 1))
    ∧ ((calculateCavHmlMotivation cfg mem v_current v_desired speed_gain).1 < mem
        → calculateCavHmlMotivation cfg mem v_current v_desired speed_gain = (0, 1))
    ∧ (∀ (rand : ℚ) (is_safe : Bool),
        (manageCavHmlTick cfg mem v_current v_desired speed_gain rand is_safe).1
          = (calculateCavHmlMotivation cfg mem v_current v_desired speed_gain).1) := by
  have hmono : mem ≤ (calculateCavHmlMotivation cfg mem v_current v_desired speed_gain).1
      ∨ calculateCavHmlMotivation cfg mem v_current v_desired speed_gain = (0, 1) := by
    by_cases hv : v_desired > 1
    · have hd : 0 ≤ max 0 ((v_desired - v_current) / v_desired) * cfg.SIM_STEP_S :=
        mul_nonneg (le_max_left 0 _) hstep
      simp only [calculateCavHmlMotivation, hv, if_true]
      split_ifs <;> first
        | (left; simp; linarith)
        | (right; rfl)
    · simp only [calculateCavHmlMotivation, hv, if_false]
      split_ifs <;> first
        | (left; simp; done)
        | (right; rfl)
  refine ⟨hmono, ?_, ?_⟩
  · intro hlt
    rcases hmono with hle | hres
    · exact absurd hlt (not_lt.mpr hle)
    · exact hres
  · intro rand is_safe
    simp only [manageCavHmlTick]
    split_ifs <;> rfl

/-- Witness for C8 (amended) at `step_length = 1`, thresholds `5` and `3`,
everything else zero. -/
theorem C8_witness :
    ((0 : ℚ) ≤ (calculateCavHmlMotivation ⟨1, 5, 3⟩ 0 0 0 0).1
      ∨ calculateCavHmlMotivation ⟨1, 5, 3⟩ 0 0 0 0 = (0, 1))
    ∧ ((calculateCavHmlMotivation ⟨1, 5, 3⟩ 0 0 0 0).1 < 0
        → calculateCavHmlMotivation ⟨1, 5, 3⟩ 0 0 0 0 = (0, 1))
    ∧ (∀ (rand : ℚ) (is_safe : Bool),
        (manageCavHmlTick ⟨1, 5, 3⟩ 0 0 0 0 rand is_safe).1
          = (calculateCavHmlMotivation ⟨1, 5, 3⟩ 0 0 0 0).1) :=
  C8_amended_monotone_except_full_motivation_reset ⟨1, 5, 3⟩ (by norm_num) 0 0 0 0

/-!
### Cooperative lane-change negotiation

Embedding of `attempt_lane_change_cooperation`,
`_check_cooperation_safety_proxy` and `_tick_cooperation_cooldowns`.
-/

/-- The module constant `_COOP_COOLDOWN_STEPS` (line 23). -/
def COOP_COOLDOWN_STEPS : ℤ := 10

/-- The static `vtype_cache` entry fields used by the cooperation code. -/
structure VTypeParams where
  accel : ℚ
  decel : ℚ
  tau : ℚ
  minGap : ℚ
deriving DecidableEq

/-- The subscription fields of one vehicle used by the cooperation code:
its type id (a `ℕ` standing for the type-id string), its speed, and its
leader information `(leader id, gap)` when present (`VAR_LEADER`). -/
structure CoopVehData where
  vtype : ℕ
  speed : ℚ
  leader : Option (ℕ × ℚ)
deriving DecidableEq

/-- Configuration scalars read by the cooperation code. -/
structure CoopConfig where
  SIM_STEP_S : ℚ
  HV_BRAKE_REACTION_TIME_S : ℚ
deriving DecidableEq

/-- The check `_check_cooperation_safety_proxy(coop_veh_id, coop_data)`: a vehicle with
no leader passes; otherwise its type parameters must be cached and its gap to
its leader must exceed `speed * tau + minGap` (with the `HV` reaction-time
fallback when `tau < 0.1`), times the margin factor `1`. -/
def checkCooperationSafetyProxy (cfg : CoopConfig)
    (vtypeCache : List (ℕ × VTypeParams)) (coop_data : CoopVehData) : Bool :=
  match coop_data.leader with
  | none => true
  | some (_, gap) =>
      match List.lookup coop_data.vtype vtypeCache with
      | none => false
      | some tp =>
          let tau := if tp.tau < 0.1 then cfg.HV_BRAKE_REACTION_TIME_S else tp.tau
          let safe_distance := coop_data.speed * tau + tp.minGap
          gap > safe_distance * 1

/-- The two cooperative requests. -/
inductive CoopAction
  | accel
  | decel
deriving DecidableEq

/-- The method `attempt_lane_change_cooperation(veh_id, veh_data, gaps)`.

`tp_id` / `tf_id` are the target-lane predecessor and follower found by the
safety stage (`gaps`), `allVehData` is `self.all_veh_data`, `cooldowns` is
`self.cooperation_cooldowns`, and `isCavType t` models
`v_type.startswith("cav")` on the type id `t` (a missing subscription entry
gives the empty type string, which is not a CAV type).  Returns the issued
command, `(target id, acceleration, duration)` if any, and the updated
cooldown map (new bindings are consed in front; `List.lookup` reads the most
recent one, like a Python dict).  A leader gap of `float('inf')` — no leader
— is `none`. -/
def attemptLaneChangeCooperation (cfg : CoopConfig) (isCavType : ℕ → Bool)
    (allVehData : List (ℕ × CoopVehData))
    (vtypeCache : List (ℕ × VTypeParams))
    (cooldowns : List (ℕ × ℤ))
    (tp_id tf_id : Option ℕ) :
    Option (ℕ × ℚ × ℚ) × List (ℕ × ℤ) :=
  let tp_data := match tp_id with | some i => List.lookup i allVehData | none => none
  let tf_data := match tf_id with | some i => List.lookup i allVehData | none => none
  let tp_is_cav := match tp_data with | some d => isCavType d.vtype | none => false
  let tf_is_cav := match tf_data with | some d => isCavType d.vtype | none => false
  let target : Option (ℕ × CoopAction) :=
    if tp_id = none ∧ tf_is_cav = true then
      match tf_id with | some i => some (i, CoopAction.decel) | none => none
    else if tf_id = none ∧ tp_is_cav = true then
      match tp_id with | some i => some (i, CoopAction.accel) | none => none
    else if tp_is_cav = true then
      match tp_id with | some i => some (i, CoopAction.accel) | none => none
    else if tf_is_cav = true then
      match tf_id with | some i => some (i, CoopAction.decel) | none => none
    else none
  match target with
  | none => (none, cooldowns)
  | some (coop_target_id, coop_action) =>
      match List.lookup coop_target_id allVehData with
      | none => (none, cooldowns)
      | some coop_data =>
          if 0 < (List.lookup coop_target_id cooldowns).getD 0 then
            (none, cooldowns)
          else if ¬ checkCooperationSafetyProxy cfg vtypeCache coop_data then
            (none, cooldowns)
          else
            let coop_duration := cfg.SIM_STEP_S * 5
            match List.lookup coop_data.vtype vtypeCache with
            | none => (none, cooldowns)
            | some type_params =>
                let gap_to_leader : Option ℚ :=
                  match coop_data.leader with
                  | some li => some li.2
                  | none => none
                let v := coop_data.speed
                let tau := if type_params.tau ≥ 0.1 then type_params.tau
                  else cfg.HV_BRAKE_REACTION_TIME_S
                let safe_distance := v * tau + type_params.minGap
                match coop_action with
                | CoopAction.accel =>
                    match gap_to_leader with
                    | none =>
                        (some (coop_target_id, type_params.accel * 0.5,
                            coop_duration),
                          (coop_target_id, COOP_COOLDOWN_STEPS) :: cooldowns)
                    | some gap =>
                        if gap ≤ safe_distance * 1.2 then (none, cooldowns)
                        else
                          (some (coop_target_id,
                              min (type_params.accel * 0.5)
                                ((gap - safe_distance)
                                  / max cfg.SIM_STEP_S 0.1),
                              coop_duration),
                            (coop_target_id, COOP_COOLDOWN_STEPS) :: cooldowns)
                | CoopAction.decel =>
                    match gap_to_leader with
                    | none => (none, cooldowns)
                    | some gap =>
                        if gap ≥ safe_distance * 1.1 then (none, cooldowns)
                        else
                          let deficit := safe_distance - gap
                          if deficit ≤ 0 then (none, cooldowns)
                          else
                            (some (coop_target_id,
                                -(min (type_params.decel * 0.6)
                                  (deficit / max cfg.SIM_STEP_S 0.1)),
                                coop_duration),
                              (coop_target_id, COOP_COOLDOWN_STEPS) :: cooldowns)

/-- The method `_tick_cooperation_cooldowns()`: entries at `1` or below expire and are
deleted, the rest are decremented. -/
def tickCooperationCooldowns (cds : List (ℕ × ℤ)) : List (ℕ × ℤ) :=
  (cds.filter (fun p => ¬ p.2 ≤ 1)).map (fun p => (p.1, p.2 - 1))

/-- C9: whenever `attempt_lane_change_cooperation` issues a cooperative
acceleration or deceleration command to a vehicle, that vehicle's cooldown
counter was not positive (a vehicle with a positive counter is never selected
as a cooperation target), and its counter is set to the configured cooldown
length `_COOP_COOLDOWN_STEPS = 10`. -/
theorem C9_cooldown_guards_cooperation (cfg : CoopConfig)
    (isCavType : ℕ → Bool) (allVehData : List (ℕ × CoopVehData))
    (vtypeCache : List (ℕ × VTypeParams)) (cooldowns : List (ℕ × ℤ))
    (tp_id tf_id : Option ℕ) (t : ℕ) (a dur : ℚ) (cds2 : List (ℕ × ℤ))
    (h : attemptLaneChangeCooperation cfg isCavType allVehData vtypeCache
          cooldowns tp_id tf_id = (some (t, a, dur), cds2)) :
    (List.lookup t cooldowns).getD 0 ≤ 0
    ∧ List.lookup t cds2 = some COOP_COOLDOWN_STEPS := by
  simp only [attemptLaneChangeCooperation] at h
  repeat' split at h
  all_goals first
    | (simp at h; done)
    | (simp only [Prod.mk.injEq, Option.some.injEq] at h
       obtain ⟨⟨hid, hcm, hdu⟩, hlist⟩ := h
       subst hid
       subst hlist
       exact ⟨not_lt.mp (by assumption), by simp [List.lookup]⟩)

/-- Witness for C9: a lone CAV predecessor (id 1, type 7) with no leader and
an empty cooldown map is asked to accelerate; its cooldown entry is created
at the configured length. -/
theorem C9_witness :
    (List.lookup 1 ([] : List (ℕ × ℤ))).getD 0 ≤ 0
    ∧ List.lookup 1 [((1 : ℕ), (10 : ℤ))] = some COOP_COOLDOWN_STEPS :=
  C9_cooldown_guards_cooperation ⟨1, 1⟩ (fun t => t == 7)
    [(1, ⟨7, 0, none⟩)] [(7, ⟨2, 4, 1, 2⟩)] [] (some 1) none 1 1 5 [(1, 10)]
    (by norm_num [attemptLaneChangeCooperation, checkCooperationSafetyProxy,
      List.lookup, COOP_COOLDOWN_STEPS])

